import Mathlib

/-!
Verification development for the `discord-player-ytdlp` extractor.

The repository has two source files: a utilities module (URL classification,
duration formatting, the metadata-backend session, playlist/mix
materialization, and the external-extractor invocations) and the extractor
class itself (query handling, playlist handling, streaming, related tracks).

Modelling conventions used throughout:
- JS strings are Lean `String`s; all string manipulation is performed on
  character lists (`String.data`) so every definition evaluates by kernel
  reduction.
- Optional JS fields are `Option` values; JS truthiness of a string field is
  `truthyS` (absent and `""` are falsy).
- JS numbers are modelled at integer precision: `Option Int`, where `none`
  stands for `NaN`/non-numeric input.  On integral values `Math.floor (a / b)`
  is `Int.fdiv a b` and the JS remainder `a % b` is `Int.tmod a b`.
- External effects (the Innertube session, `yt-dlp` subprocess runs, the
  filesystem) are passed in explicitly as oracle values describing the outcome
  of each call, and thrown JS errors are `Except.error` carrying the message.
-/

namespace YtDlp

/-- JS string truthiness for an optional string field: an absent field and the
empty string are falsy, every other string is truthy. -/
def truthyS : Option String → Bool
  | none => false
  | some s => s != ""

/-- JS `a || d` where `a` is an optional string field and `d` the default that
the source supplies after `||`: the default is used when `a` is absent or the
empty string (both falsy in JS). -/
def jsOrS (a : Option String) (d : String) : String :=
  match a with
  | none => d
  | some s => if s = "" then d else s

/-- JS number restricted to integral values. `none` models `NaN` (and any
non-numeric input, for which `isNaN` is true); `some v` an integer-valued
number. -/
abbrev JSNum := Option Int

/-- JS `String.prototype.padStart(n, c)`: prepend copies of `c` until the
string has length `n` (no-op when it is already at least that long). -/
def padStart (s : String) (n : Nat) (c : Char) : String :=
  String.mk (List.replicate (n - s.length) c) ++ s

/-- `formatDuration` from the utilities module (src/unnamed/part_000 lines
593-605).  The source guard is `if (!seconds || isNaN(seconds)) return
'Unknown'`; on the integral domain `!seconds` is true exactly for `0` (and
`isNaN` for `NaN`, our `none`).  `Math.floor(seconds / 3600)` is `Int.fdiv`,
the JS remainder `%` is `Int.tmod`, and `Math.floor` of the already-integral
remainder `seconds % 60` is the identity. -/
def formatDuration : JSNum → String
  | none => "Unknown"
  | some seconds =>
    if seconds = 0 then "Unknown"
    else
      let hours : Int := Int.fdiv seconds 3600
      let minutes : Int := Int.fdiv (Int.tmod seconds 3600) 60
      let secs : Int := Int.tmod seconds 60
      if hours > 0 then
        toString hours ++ ":" ++ padStart (toString minutes) 2 '0' ++ ":" ++
          padStart (toString secs) 2 '0'
      else
        toString minutes ++ ":" ++ padStart (toString secs) 2 '0'

/-- Characters allowed in a URL scheme after the leading letter. -/
def schemeChar (c : Char) : Bool :=
  c.isAlphanum || c = '+' || c = '-' || c = '.'

/-- Model of the host JS runtime WHATWG `new URL(s)` constructor, restricted
to the two observations the source makes of it: whether construction succeeds
at all (`isValidUrl`) and, on success, the `protocol` property (the scheme
with a trailing colon, lowercased).  The runtime parser is not repository
code; it is abstracted to: the string parses iff it begins with a nonempty
scheme (a letter followed by scheme characters) terminated by a colon. -/
def jsUrlProtocol (s : String) : Option String :=
  let cs := s.data
  let pre := cs.takeWhile (fun c => c ≠ ':')
  if pre.length = cs.length then none
  else
    match pre with
    | [] => none
    | c :: rest =>
      if c.isAlpha && (c :: rest).all schemeChar then
        some (String.mk ((c :: rest).map Char.toLower) ++ ":")
      else none

/-- `isValidUrl` from the utilities module (lines 72-79): `new URL(string)`
inside try/catch, true iff construction succeeds. -/
def isValidUrl (s : String) : Bool :=
  (jsUrlProtocol s).isSome

/-- The protocol denylist of `validateUrl` (line 641). -/
def unsupportedProtocols : List String := ["file:", "ftp:", "mailto:"]

/-- `validateUrl` from the utilities module (lines 630-648).  The input is
typed as a string, so the JS guard `!url || typeof url !== 'string'` reduces
to the empty-string check. -/
def validateUrl (url : String) : Bool :=
  if url = "" then false
  else if !(isValidUrl url) then false
  else
    match jsUrlProtocol url with
    | none => false
    | some protocol => !(unsupportedProtocols.contains protocol)

/-- Lowercased character list of a string (used for the case-insensitive
`/i` regex flag). -/
def lowerChars (s : String) : List Char := s.data.map Char.toLower

/-- Does the character list `s` begin with the characters of `pat`. -/
def leadsWith (pat : String) (s : List Char) : Bool :=
  s.take pat.data.length == pat.data

/-- `isYouTubeUrl` (lines 84-87): the anchored case-insensitive regex
`^(https?:\/\/)?(www\.)?(youtube\.com|youtu\.be|m\.youtube\.com)`.  The two
optional groups are stripped deterministically: when they are present the
host alternatives cannot match at the unstripped position, so no regex
backtracking case is lost. -/
def isYouTubeUrl (url : String) : Bool :=
  let t0 := lowerChars url
  let t1 :=
    if leadsWith "https://" t0 then t0.drop 8
    else if leadsWith "http://" t0 then t0.drop 7
    else t0
  let t2 := if leadsWith "www." t1 then t1.drop 4 else t1
  leadsWith "youtube.com" t2 || leadsWith "youtu.be" t2 || leadsWith "m.youtube.com" t2

/-- Characters matched by the playlist-id class `[a-zA-Z0-9_-]`. -/
def playlistIdChar (c : Char) : Bool :=
  c.isAlphanum || c = '_' || c = '-'

/-- First match of the unanchored case-sensitive regex
`[?&]list=([a-zA-Z0-9_-]+)` (lines 93 and 101), scanning left to right; the
greedy capture group needs at least one id character. -/
def findListParam : List Char → Option String
  | [] => none
  | c :: rest =>
    if (c = '?' || c = '&') && leadsWith "list=" rest &&
        (match rest.drop 5 with
         | [] => false
         | d :: _ => playlistIdChar d) then
      some (String.mk ((rest.drop 5).takeWhile playlistIdChar))
    else
      findListParam rest

/-- `isYouTubePlaylistUrl` (lines 92-95). -/
def isYouTubePlaylistUrl (url : String) : Bool :=
  isYouTubeUrl url && (findListParam url.data).isSome

/-- `extractYouTubePlaylistId` (lines 100-104): first capture of the playlist
regex, `null` on no match. -/
def extractYouTubePlaylistId (url : String) : Option String :=
  findListParam url.data

/-- Characters matched by the video-id class `[^"&?\/\s]`. -/
def videoIdChar (c : Char) : Bool :=
  !(c = '"' || c = '&' || c = '?' || c = '/' || c.isWhitespace)

/-- The capture group `([^"&?\/\s]{11})`: exactly eleven id characters taken
from the front of the remainder (further characters may follow the match). -/
def captureId (cs : List Char) : Option String :=
  let pre := cs.take 11
  if pre.length == 11 && pre.all videoIdChar then some (String.mk pre) else none

/-- Inner alternative `.*[?&]v=` followed by the capture.  The greedy `.*`
backtracks from the right, so the engine settles on the rightmost `[?&]v=`
occurrence at which the capture succeeds; `.` does not cross a newline. -/
def vParamCapture : List Char → Option String
  | [] => none
  | c :: rest =>
    let here :=
      if (c = '?' || c = '&') && leadsWith "v=" rest then captureId (rest.drop 2)
      else none
    if c = '\n' then here
    else
      match vParamCapture rest with
      | some r => some r
      | none => here

/-- Greedy tail `.+\/` of the first inner alternative followed by the
capture: at least one non-newline character, then a slash, then the capture;
backtracking prefers the rightmost viable slash.  The flag records whether
`.+` has consumed at least one character. -/
def slashPathCapture : List Char → Bool → Option String
  | [], _ => none
  | c :: rest, consumed =>
    let deeper := if c = '\n' then none else slashPathCapture rest true
    match deeper with
    | some r => some r
    | none => if consumed && c = '/' then captureId rest else none

/-- Inner alternative `[^\/]+\/.+\/` followed by the capture.  The greedy
`[^\/]+` run is forced to be maximal: shrinking it cannot make the following
literal slash match, since every character inside the run is a non-slash. -/
def pathSegsCapture (r : List Char) : Option String :=
  let run := r.takeWhile (fun c => c ≠ '/')
  if run.length = 0 then none
  else
    match r.drop run.length with
    | '/' :: t => slashPathCapture t false
    | _ => none

/-- Inner alternative `(?:v|e(?:mbed)?)\/` followed by the capture, in regex
preference order (`v`, then greedy `embed`, then `e`).  When a longer literal
matches but the capture fails, the shorter literals cannot match either
(their next character disagrees), so no backtracking case is lost. -/
def vePathCapture (r : List Char) : Option String :=
  if leadsWith "v/" r then captureId (r.drop 2)
  else if leadsWith "embed/" r then captureId (r.drop 6)
  else if leadsWith "e/" r then captureId (r.drop 2)
  else none

/-- Leftmost-match scan of the case-sensitive video-id regex
`(?:youtube\.com\/(?:[^\/]+\/.+\/|(?:v|e(?:mbed)?)\/|.*[?&]v=)|youtu\.be\/)([^"&?\/\s]{11})`
(lines 109-113): at each start position try the `youtube.com/` branch with
its three inner alternatives in regex order, then the `youtu.be/` branch,
then advance one character. -/
def scanVideoId : List Char → Option String
  | [] => none
  | c :: rest =>
    let cs := c :: rest
    let atYtCom :=
      if leadsWith "youtube.com/" cs then
        let r := cs.drop 12
        match pathSegsCapture r with
        | some v => some v
        | none =>
          match vePathCapture r with
          | some v => some v
          | none => vParamCapture r
      else none
    match atYtCom with
    | some v => some v
    | none =>
      if leadsWith "youtu.be/" cs then
        match captureId (cs.drop 9) with
        | some v => some v
        | none => scanVideoId rest
      else scanVideoId rest

/-- `extractYouTubeId` (lines 109-113): first capture of the video-id regex,
`null` on no match. -/
def extractYouTubeId (url : String) : Option String :=
  scanVideoId url.data

example : extractYouTubeId "https://www.youtube.com/watch?v=abcdefghijk" = some "abcdefghijk" := by decide

example : extractYouTubeId "https://youtu.be/abcdefghijk" = some "abcdefghijk" := by decide

example : extractYouTubeId "https://www.youtube.com/embed/abcdefghijk" = some "abcdefghijk" := by decide

example : extractYouTubeId "https://www.youtube.com/playlist?list=PL123" = none := by decide

example : isYouTubePlaylistUrl "https://www.youtube.com/playlist?list=PL123" = true := by decide

example : extractYouTubePlaylistId "https://www.youtube.com/playlist?list=PL123" = some "PL123" := by decide

example : isYouTubeUrl "https://example.com/video" = false := by decide

/-- Helper: any string of the shape `a ++ ":" ++ b` is distinct from
`"Unknown"`, because it contains a colon and `"Unknown"` does not. -/
theorem append_colon_ne_unknown (a b : String) : a ++ ":" ++ b ≠ "Unknown" := by
  intro h
  have hmem : (':' : Char) ∈ (a ++ ":" ++ b).data := by
    rw [String.data_append, String.data_append]
    exact List.mem_append_left _ (List.mem_append_right _ (by decide))
  rw [h] at hmem
  exact absurd hmem (by decide)

/-- C9: `validateUrl(s)` returns true iff `s` is a non-empty string that
parses as a URL and whose scheme is not `file`, `ftp` or `mailto`; it is a
total boolean function (the source wraps URL construction in try/catch, so it
never throws); in particular `validateUrl("file:///etc/passwd") = false`,
`validateUrl("https://example.com") = true` and `validateUrl("") = false`. -/
theorem validateUrl_spec :
    (∀ s : String, validateUrl s = true ↔
      s ≠ "" ∧ (jsUrlProtocol s).isSome ∧
        ∀ p, jsUrlProtocol s = some p → p ∉ unsupportedProtocols) ∧
    validateUrl "file:///etc/passwd" = false ∧
    validateUrl "https://example.com" = true ∧
    validateUrl "" = false := by
  refine ⟨?_, by decide, by decide, by decide⟩
  intro s
  by_cases hs : s = ""
  · subst hs
    simp [validateUrl]
  · cases hp : jsUrlProtocol s with
    | none =>
      simp [validateUrl, isValidUrl, hs, hp]
    | some p =>
      simp [validateUrl, isValidUrl, hs, hp, List.contains]

/-- Witness for C9 at the concrete input `https://example.com`. -/
theorem validateUrl_spec_witness : validateUrl "https://example.com" = true := by
  refine (validateUrl_spec.1 "https://example.com").mpr ⟨by decide, by decide, ?_⟩
  intro p hp
  have hv : jsUrlProtocol "https://example.com" = some "https:" := by decide
  rw [hv] at hp
  cases hp
  decide

/-- C2 counterexample: the claim (and the spec example) state
`formatDuration(0) = "0:00"`, but the source guard `!seconds || isNaN(seconds)`
is already true for `0` (zero is falsy in JS), so the code returns
`"Unknown"` on input `0`. -/
theorem formatDuration_zero_counterexample :
    formatDuration (some 0) = "Unknown" ∧ formatDuration (some 0) ≠ "0:00" := by
  decide

/-- C2 amended: `formatDuration(s)` returns `"Unknown"` exactly when `s` is
invalid/non-numeric or zero; otherwise, with `h = floor(s/3600)`,
`m = floor((s mod 3600)/60)` and `c = s mod 60` (JS remainder), it returns
`h:MM:SS` (minutes and seconds zero-padded to 2 digits) when `h > 0` and
`m:SS` when `h = 0`; in particular `formatDuration(59) = "0:59"`,
`formatDuration(3661) = "1:01:01"` and `formatDuration(NaN) = "Unknown"`
(while `formatDuration(0) = "Unknown"`, not `"0:00"`). -/
theorem formatDuration_amended_spec :
    (∀ s : JSNum, formatDuration s = "Unknown" ↔ s = none ∨ s = some 0) ∧
    (∀ v : Int, v ≠ 0 →
      (Int.fdiv v 3600 > 0 →
        formatDuration (some v) =
          toString (Int.fdiv v 3600) ++ ":" ++
            padStart (toString (Int.fdiv (Int.tmod v 3600) 60)) 2 '0' ++ ":" ++
            padStart (toString (Int.tmod v 60)) 2 '0') ∧
      (Int.fdiv v 3600 = 0 →
        formatDuration (some v) =
          toString (Int.fdiv (Int.tmod v 3600) 60) ++ ":" ++
            padStart (toString (Int.tmod v 60)) 2 '0')) ∧
    formatDuration none = "Unknown" ∧
    formatDuration (some 59) = "0:59" ∧
    formatDuration (some 3661) = "1:01:01" := by
  refine ⟨?_, ?_, by decide, by decide, by decide⟩
  · intro s
    match s with
    | none => simp [formatDuration]
    | some v =>
      by_cases hv : v = 0
      · subst hv
        simp [formatDuration]
      · simp only [formatDuration, if_neg hv, Option.some.injEq]
        constructor
        · intro h
          exfalso
          revert h
          split
          · exact append_colon_ne_unknown _ _
          · exact append_colon_ne_unknown _ _
        · rintro (h | h) <;> simp_all
  · intro v hv
    constructor
    · intro hpos
      simp [formatDuration, hv, hpos]
    · intro hzero
      simp [formatDuration, hv, hzero]

/-- Witness for C2 (amended) at the concrete input `3661`. -/
theorem formatDuration_amended_spec_witness :
    formatDuration (some 3661) =
      toString (Int.fdiv (3661 : Int) 3600) ++ ":" ++
        padStart (toString (Int.fdiv (Int.tmod (3661 : Int) 3600) 60)) 2 '0' ++ ":" ++
        padStart (toString (Int.tmod (3661 : Int) 60)) 2 '0' :=
  (formatDuration_amended_spec.2.1 3661 (by decide)).1 (by decide)

/-- JS value supplied as the `cookies` option of the metadata backend:
`undefined` (field absent), `null`, a cookie string (compared by value under
`!==`), or a structured cookie collection (compared by object identity,
modelled as a numeric tag). -/
inductive Cred
  | undef
  | null
  | str (s : String)
  | obj (id : Nat)
deriving DecidableEq

/-- Module-level mutable state of the utilities file: `let innertube = null`
and `let lastCookies = null` (lines 17-18).  A live Innertube session is a
numeric handle so distinct creations are distinguishable. -/
structure YTState where
  innertube : Option Nat
  lastCookies : Cred
deriving DecidableEq

/-- The state at module load. -/
def initialYTState : YTState := ⟨none, Cred.null⟩

/-- Observable outcome of one `initializeYouTube(options)` call:
the resulting module state, the returned session (the source returns the
module variable, `null` when creation failed), whether the reinitialization
branch ran (`didCreate`), and whether an existing session was signed out
first (`signedOut`). -/
structure InitResult where
  st : YTState
  returned : Option Nat
  didCreate : Bool
  signedOut : Bool
deriving DecidableEq

/-- `initializeYouTube` (lines 20-67).  `needsReinit` is the source condition
`!innertube || currentCookies !== lastCookies`.  `createOutcome` is the
oracle for `Innertube.create(initOptions)`: `some h` a fresh session handle,
`none` a thrown creation error — the catch logs, sets the session to `null`
and does not update `lastCookies` (the update on line 59 is skipped).
Sign-out failures are ignored by the source and need no modelling.  The
assembly of `initOptions` (cookie passthrough, client variant, session-cache
flag) does not influence the claims and is folded into the oracle. -/
def initializeYouTube (st : YTState) (cookies : Cred) (createOutcome : Option Nat) :
    InitResult :=
  let needsReinit := st.innertube.isNone || cookies != st.lastCookies
  if needsReinit then
    match createOutcome with
    | some h => ⟨⟨some h, cookies⟩, some h, true, st.innertube.isSome⟩
    | none => ⟨⟨none, st.lastCookies⟩, none, true, st.innertube.isSome⟩
  else ⟨st, st.innertube, false, false⟩

/-- A sequence of `initializeYouTube` calls sharing one credential, folding
the module state through; the oracle list supplies each call's
`Innertube.create` outcome (unused unless the call reinitializes). -/
def runUnchanged (st : YTState) (c : Cred) (os : List (Option Nat)) : YTState :=
  os.foldl (fun s o => (initializeYouTube s c o).st) st

/-- Helper: a state holding a live session created for credential `c` is a
fixed point of further calls with credential `c`. -/
theorem runUnchanged_fixed (c : Cred) (os : List (Option Nat)) :
    ∀ st : YTState, st.innertube.isSome → st.lastCookies = c →
      runUnchanged st c os = st := by
  induction os with
  | nil => intro st _ _; rfl
  | cons o os ih =>
    intro st hs hc
    have hstep : (initializeYouTube st c o).st = st := by
      simp [initializeYouTube, Option.isNone_iff_eq_none, hc,
        Option.isSome_iff_ne_none.mp hs]
    show runUnchanged (initializeYouTube st c o).st c os = st
    rw [hstep]
    exact ih st hs hc

/-- Helper: after a call whose `Innertube.create` succeeds, the module state
holds a live session whose recorded credential is the supplied one. -/
theorem initializeYouTube_success_st (st : YTState) (c : Cred) (h : Nat) :
    ((initializeYouTube st c (some h)).st).innertube.isSome = true ∧
    ((initializeYouTube st c (some h)).st).lastCookies = c := by
  cases hin : st.innertube with
  | none => simp [initializeYouTube, hin]
  | some v =>
    by_cases hbc : c = st.lastCookies
    · simp [initializeYouTube, hin, hbc]
    · simp [initializeYouTube, hin, hbc]

/-- Helper: a state holding a live session created for credential `c` passes
through a call with credential `c` untouched: no sign-out, no creation, the
existing session is returned. -/
theorem initializeYouTube_reuse (st : YTState) (c : Cred) (o : Option Nat)
    (hs : st.innertube.isSome = true) (hc : st.lastCookies = c) :
    initializeYouTube st c o = ⟨st, st.innertube, false, false⟩ := by
  cases hin : st.innertube with
  | none => rw [hin] at hs; simp at hs
  | some v => simp [initializeYouTube, hin, hc]

/-- C5: the metadata-backend session is recreated exactly when no session
exists or the supplied credential differs (by `!==` identity/value) from the
credential recorded at the last successful creation; a credential change
between two consecutive calls tears down (signs out) and recreates the
session exactly once — the next call with the new credential reuses it — and
any sequence of calls with an unchanged credential after a successful
creation leaves the session untouched. -/
theorem initializeYouTube_reinit_spec :
    (∀ (st : YTState) (c : Cred) (o : Option Nat),
      (initializeYouTube st c o).didCreate = true ↔
        st.innertube = none ∨ c ≠ st.lastCookies) ∧
    (∀ (st : YTState) (c₁ c₂ : Cred) (h₁ h₂ : Nat) (o : Option Nat), c₂ ≠ c₁ →
      (initializeYouTube (initializeYouTube st c₁ (some h₁)).st c₂ (some h₂)).didCreate
          = true ∧
      (initializeYouTube (initializeYouTube st c₁ (some h₁)).st c₂ (some h₂)).signedOut
          = true ∧
      (initializeYouTube
          (initializeYouTube (initializeYouTube st c₁ (some h₁)).st c₂ (some h₂)).st
          c₂ o).didCreate = false ∧
      (initializeYouTube
          (initializeYouTube (initializeYouTube st c₁ (some h₁)).st c₂ (some h₂)).st
          c₂ o).returned = some h₂) ∧
    (∀ (st : YTState) (c : Cred) (h : Nat) (o : Option Nat) (os : List (Option Nat)),
      (initializeYouTube (initializeYouTube st c (some h)).st c o).didCreate = false ∧
      (initializeYouTube (initializeYouTube st c (some h)).st c o).returned =
        ((initializeYouTube st c (some h)).st).innertube ∧
      runUnchanged (initializeYouTube st c (some h)).st c os =
        (initializeYouTube st c (some h)).st) := by
  refine ⟨?_, ?_, ?_⟩
  · intro st c o
    constructor
    · intro hd
      by_contra hcon
      push_neg at hcon
      obtain ⟨hn, hc⟩ := hcon
      cases hin : st.innertube with
      | none => exact hn hin
      | some v =>
        rw [initializeYouTube_reuse st c o (by simp [hin]) hc.symm] at hd
        simp at hd
    · intro hor
      cases o with
      | none =>
        rcases hor with h | h
        · simp [initializeYouTube, h]
        · simp [initializeYouTube, h]
      | some h2 =>
        rcases hor with h | h
        · simp [initializeYouTube, h]
        · simp [initializeYouTube, h]
  · intro st c₁ c₂ h₁ h₂ o hne
    obtain ⟨hs, hc⟩ := initializeYouTube_success_st st c₁ h₁
    generalize hg : (initializeYouTube st c₁ (some h₁)).st = st₁ at hs hc ⊢
    have hnec : ¬ c₂ = st₁.lastCookies := by rw [hc]; exact hne
    have hcall : initializeYouTube st₁ c₂ (some h₂) =
        ⟨⟨some h₂, c₂⟩, some h₂, true, st₁.innertube.isSome⟩ := by
      cases hin : st₁.innertube with
      | none => simp [initializeYouTube, hin]
      | some v => simp [initializeYouTube, hin, hnec]
    have hreuse := initializeYouTube_reuse ⟨some h₂, c₂⟩ c₂ o (by simp) rfl
    refine ⟨by rw [hcall], by rw [hcall]; exact hs, ?_, ?_⟩
    · rw [hcall]
      show (initializeYouTube ⟨some h₂, c₂⟩ c₂ o).didCreate = false
      rw [hreuse]
    · rw [hcall]
      show (initializeYouTube ⟨some h₂, c₂⟩ c₂ o).returned = some h₂
      rw [hreuse]
  · intro st c h o os
    obtain ⟨hs, hc⟩ := initializeYouTube_success_st st c h
    have hreuse := initializeYouTube_reuse _ c o hs hc
    rw [hreuse]
    exact ⟨rfl, rfl, runUnchanged_fixed c os _ hs hc⟩

/-- Witness for C5: a concrete credential change from `"a"` to `"b"` starting
at the initial state recreates the session exactly once. -/
theorem initializeYouTube_reinit_spec_witness :
    (initializeYouTube (initializeYouTube initialYTState (Cred.str "a") (some 1)).st
        (Cred.str "b") (some 2)).didCreate = true ∧
    (initializeYouTube (initializeYouTube initialYTState (Cred.str "a") (some 1)).st
        (Cred.str "b") (some 2)).signedOut = true ∧
    (initializeYouTube
        (initializeYouTube (initializeYouTube initialYTState (Cred.str "a") (some 1)).st
          (Cred.str "b") (some 2)).st (Cred.str "b") none).didCreate = false ∧
    (initializeYouTube
        (initializeYouTube (initializeYouTube initialYTState (Cred.str "a") (some 1)).st
          (Cred.str "b") (some 2)).st (Cred.str "b") none).returned = some 2 :=
  initializeYouTube_reinit_spec.2.1 initialYTState (Cred.str "a") (Cred.str "b") 1 2 none
    (by decide)

/-- Normalized track value produced by the backends (§3 TrackInfo): every
field is filled, missing upstream data is replaced by sentinel values. -/
structure TrackInfo where
  id : String
  title : String
  duration : String
  thumbnail : Option String
  url : String
  author : String
  views : String
deriving DecidableEq

/-- JS `a || b` on two optional string fields: the right operand is used when
the left is absent or `""`. -/
def jsOr2 (a b : Option String) : Option String :=
  if truthyS a then a else b

/-- JS `a || b || null`: as `jsOr2`, but a falsy overall result collapses to
`null`. -/
def jsOrNull (a b : Option String) : Option String :=
  let r := jsOr2 a b
  if truthyS r then r else none

/-- One entry of an upstream playlist response, carrying the optional fields
the batch-entry callback consults (`video.id || video.video_id`, nested
`.text`/`.name`/`.url` forms and flat forms), plus a flag modelling a thrown
error inside the callback (which the callback catches, resolving `null`). -/
structure RawVideo where
  id : Option String
  video_id : Option String
  title_text : Option String
  title_flat : Option String
  author_name : Option String
  channel_name : Option String
  duration_text : Option String
  duration_flat : Option String
  thumb_url : Option String
  thumbnail_url : Option String
  view_count_text : Option String
  views_flat : Option String
  throws : Bool
deriving DecidableEq

/-- The per-entry callback of the playlist batch loop (lines 274-300):
normalize the fields with their sentinel defaults, return `null` when the
entry has no id (`!videoId`) or when the callback throws. -/
def resolveEntry (v : RawVideo) : Option TrackInfo :=
  if v.throws then none
  else
    let vid := jsOr2 v.id v.video_id
    if truthyS vid then
      some
        { id := vid.getD ""
          title := jsOrS (jsOr2 v.title_text v.title_flat) "Unknown Title"
          duration := jsOrS (jsOr2 v.duration_text v.duration_flat) "Unknown"
          thumbnail := jsOrNull v.thumb_url v.thumbnail_url
          url := "https://www.youtube.com/watch?v=" ++ vid.getD ""
          author := jsOrS (jsOr2 v.author_name v.channel_name) "Unknown Artist"
          views := jsOrS (jsOr2 v.view_count_text v.views_flat) "0" }
    else none

/-- The batched resolution loop of `getYouTubePlaylist` (lines 269-308):
slices of `batchSize = 10`; within a slice the entries are resolved jointly
with `Promise.allSettled`, which reports results in argument order regardless
of completion order, and the callback never rejects (it catches internally
and resolves `null`), so the `fulfilled && value !== null` filter keeps
exactly the non-null resolutions; slice results are appended in slice
order. -/
def processBatches : List RawVideo → List TrackInfo
  | [] => []
  | v :: rest =>
    ((v :: rest).take 10).filterMap resolveEntry ++ processBatches ((v :: rest).drop 10)
termination_by l => l.length
decreasing_by
  simp [List.length_drop]
  omega

/-- Helper: the batched loop computes exactly the order-preserving
`filterMap` of the entry resolver over the whole input. -/
theorem processBatches_eq_filterMap (videos : List RawVideo) :
    processBatches videos = videos.filterMap resolveEntry := by
  induction videos using processBatches.induct with
  | case1 => rw [processBatches]; rfl
  | case2 v rest ih =>
    rw [processBatches]
    conv_rhs => rw [← List.take_append_drop 10 (v :: rest)]
    rw [List.filterMap_append, ih]

/-- C6: playlist entry resolution processes entries in consecutive groups of
10 (`processBatches`); for every input list the output equals the input order
restricted to the entries that resolve, entries with no id or a thrown
resolution being dropped without aborting the batch; in particular a group of
10 in which exactly entry 4 fails yields the other 9 tracks in input order.
Output order equals input order across groups because each group's results
are reported in argument order and appended in group order. -/
theorem playlist_batch_spec :
    (∀ videos : List RawVideo,
      processBatches videos = videos.filterMap resolveEntry) ∧
    (∀ (a b c d e f g h i j : RawVideo) (ta tb tc te tf tg th ti tj : TrackInfo),
      resolveEntry a = some ta → resolveEntry b = some tb →
      resolveEntry c = some tc → resolveEntry d = none →
      resolveEntry e = some te → resolveEntry f = some tf →
      resolveEntry g = some tg → resolveEntry h = some th →
      resolveEntry i = some ti → resolveEntry j = some tj →
      processBatches [a, b, c, d, e, f, g, h, i, j] =
        [ta, tb, tc, te, tf, tg, th, ti, tj]) := by
  refine ⟨processBatches_eq_filterMap, ?_⟩
  intro a b c d e f g h i j ta tb tc te tf tg th ti tj ha hb hc hd he hf hg hh hi hj
  rw [processBatches_eq_filterMap]
  simp [List.filterMap_cons, ha, hb, hc, hd, he, hf, hg, hh, hi, hj]

/-- A concrete resolvable playlist entry with id `s`. -/
def sampleEntry (s : String) : RawVideo :=
  ⟨some s, none, some ("Title " ++ s), none, some "Artist", none, some "3:00",
    none, none, none, some "1", none, false⟩

/-- The track `sampleEntry s` resolves to. -/
def sampleTrack (s : String) : TrackInfo :=
  ⟨s, "Title " ++ s, "3:00", none, "https://www.youtube.com/watch?v=" ++ s,
    "Artist", "1"⟩

/-- A concrete playlist entry with no id, which the batch resolver drops. -/
def missingIdEntry : RawVideo :=
  ⟨none, none, some "Title broken", none, some "Artist", none, some "3:00",
    none, none, none, some "1", none, false⟩

/-- Witness for C6: a concrete group of 10 in which exactly entry 4 has no
id yields the other 9 tracks in input order. -/
theorem playlist_batch_spec_witness :
    processBatches
        [sampleEntry "aaaaaaaaaa1", sampleEntry "aaaaaaaaaa2", sampleEntry "aaaaaaaaaa3",
          missingIdEntry, sampleEntry "aaaaaaaaaa5", sampleEntry "aaaaaaaaaa6",
          sampleEntry "aaaaaaaaaa7", sampleEntry "aaaaaaaaaa8", sampleEntry "aaaaaaaaaa9",
          sampleEntry "aaaaaaaab10"] =
      [sampleTrack "aaaaaaaaaa1", sampleTrack "aaaaaaaaaa2", sampleTrack "aaaaaaaaaa3",
        sampleTrack "aaaaaaaaaa5", sampleTrack "aaaaaaaaaa6", sampleTrack "aaaaaaaaaa7",
        sampleTrack "aaaaaaaaaa8", sampleTrack "aaaaaaaaaa9", sampleTrack "aaaaaaaab10"] :=
  playlist_batch_spec.2 _ _ _ _ _ _ _ _ _ _ _ _ _ _ _ _ _ _ _
    (by decide) (by decide) (by decide) (by decide) (by decide)
    (by decide) (by decide) (by decide) (by decide) (by decide)

/-- One entry of a seed video's `watch_next_feed`.  `title_present` models
the truthiness of the `item.title` object itself, `title_text` its `.text`
property. -/
structure FeedItem where
  type : String
  id : Option String
  title_present : Bool
  title_text : Option String
  duration_text : Option String
  thumb_url : Option String
  author_name : Option String
  view_count_text : Option String
deriving DecidableEq

/-- The feed filter `item.type === 'CompactVideo' && item.id && item.title`
(lines 199-200 and 382-384). -/
def playableItem (it : FeedItem) : Bool :=
  it.type == "CompactVideo" && truthyS it.id && it.title_present

/-- The track a playable feed item is mapped to (lines 202-210). -/
def feedTrack (it : FeedItem) : TrackInfo :=
  { id := it.id.getD ""
    title := jsOrS it.title_text "Unknown Title"
    duration := jsOrS it.duration_text "Unknown"
    thumbnail := jsOrNull it.thumb_url none
    url := "https://www.youtube.com/watch?v=" ++ it.id.getD ""
    author := jsOrS it.author_name "Unknown Artist"
    views := jsOrS it.view_count_text "0" }

/-- The seed video of a Mix: its `basic_info` fields and its
`watch_next_feed` (absent when the response carries none). -/
structure SeedVideo where
  title : Option String
  duration_text : Option String
  thumb_url : Option String
  author : Option String
  view_count : Option String
  feed : Option (List FeedItem)
deriving DecidableEq

/-- The first track of a synthesized Mix playlist: the seed video itself
(lines 187-195). -/
def seedTrack (sid : String) (sv : SeedVideo) : TrackInfo :=
  { id := sid
    title := jsOrS sv.title "Unknown Title"
    duration := jsOrS sv.duration_text "Unknown"
    thumbnail := jsOrNull sv.thumb_url none
    url := "https://www.youtube.com/watch?v=" ++ sid
    author := jsOrS sv.author "Unknown Artist"
    views := jsOrS sv.view_count "0" }

/-- An upstream playlist response: a `videos` or `items` entry list (absent
entries model missing properties; an empty present list is truthy in JS) and
the nested/flat header fields. -/
structure PlaylistResponse where
  videos : Option (List RawVideo)
  items : Option (List RawVideo)
  info_title : Option String
  title_text : Option String
  info_description : Option String
  description_text : Option String
  info_thumb : Option String
  thumb : Option String
  info_author : Option String
  author_name : Option String
deriving DecidableEq

/-- Normalized playlist value (§3 PlaylistInfo). -/
structure PlaylistInfo where
  id : String
  title : String
  description : String
  thumbnail : Option String
  author : String
  url : String
  tracks : List TrackInfo
deriving DecidableEq

/-- `playlist.videos || playlist.items || []`: JS arrays are truthy even when
empty, so only absence falls through. -/
def jsOrArr (a b : Option (List RawVideo)) : List RawVideo :=
  match a with
  | some l => l
  | none => b.getD []

/-- Oracle for the external effects of one `getYouTubePlaylist` call:
whether `initializeYouTube` yields a session, the outcome of
`yt.getInfo(seedVideoId)` in the Mix branch (`.error` a thrown error,
`.ok none` a null result), and the outcome of the raced
`yt.getPlaylist(playlistId)` (a timeout rejects with the message
`Playlist request timeout` and is an `.error` like any other throw). -/
structure YTOracle where
  session : Bool
  seedInfo : Except String (Option SeedVideo)
  playlistFetch : Except String (Option PlaylistResponse)

/-- Message thrown by the Mix branch when fetching the seed fails. -/
def mixUnavailableMsg : String :=
  "Unable to access Mix playlist. This may be a private or unavailable Mix."

/-- Rewritten message for upstream errors mentioning `unviewable`/`private`. -/
def privateMsg : String :=
  "This playlist is private or requires authentication. Please check your YouTube cookies."

/-- Rewritten message for upstream errors mentioning `timeout`. -/
def timeoutMsg : String := "Playlist request timed out. Please try again."

/-- Rewritten message for upstream errors mentioning `not found`. -/
def notFoundMsg : String := "Playlist not found. Please check the playlist ID."

/-- Message thrown for a malformed Mix playlist id. -/
def invalidMixMsg : String := "Invalid YouTube Mix playlist ID format"

/-- Does the character list `s` begin with the character list `pat`. -/
def listLeads (pat s : List Char) : Bool :=
  s.take pat.length == pat

/-- Does `pat` occur as a contiguous run inside the character list. -/
def hasSub (pat : List Char) : List Char → Bool
  | [] => listLeads pat []
  | c :: rest => listLeads pat (c :: rest) || hasSub pat rest

/-- JS `String.prototype.includes(pat)`. -/
def containsSub (s pat : String) : Bool :=
  hasSub pat.data s.data

/-- The message rewriting of the outer catch of `getYouTubePlaylist` (lines
319-331): errors mentioning `unviewable` or `private` become `privateMsg`,
`timeout` becomes `timeoutMsg`, `not found` becomes `notFoundMsg`; everything
else is rethrown unchanged. -/
def rewriteError (msg : String) : String :=
  if containsSub msg "unviewable" || containsSub msg "private" then privateMsg
  else if containsSub msg "timeout" then timeoutMsg
  else if containsSub msg "not found" then notFoundMsg
  else msg

/-- The track list synthesized for a Mix: the seed track, then — when the
seed carries a `watch_next_feed` — up to 19 playable feed entries (lines
187-213). -/
def mixTracks (sid : String) (sv : SeedVideo) : List TrackInfo :=
  match sv.feed with
  | none => [seedTrack sid sv]
  | some feed => seedTrack sid sv :: ((feed.filter playableItem).take 19).map feedTrack

/-- The playlist value returned for a Mix (lines 215-223). -/
def mixPlaylist (pid sid : String) (sv : SeedVideo) : PlaylistInfo :=
  { id := pid
    title := "Mix - " ++ jsOrS sv.title "Unknown"
    description := "YouTube Mix playlist (auto-generated)"
    thumbnail := jsOrNull sv.thumb_url none
    author := "YouTube"
    url := "https://www.youtube.com/playlist?list=" ++ pid
    tracks := mixTracks sid sv }

/-- The playlist header of an ordinary playlist with empty `tracks` — the
object literal the source duplicates at lines 258-266 and 310-317 (the second
occurrence carries the batch-resolved tracks instead). -/
def playlistHeader (pid : String) (resp : PlaylistResponse) : PlaylistInfo :=
  { id := pid
    title := jsOrS (jsOr2 resp.info_title resp.title_text) "Unknown Playlist"
    description := jsOrS (jsOr2 resp.info_description resp.description_text) ""
    thumbnail := jsOrNull resp.info_thumb resp.thumb
    author := jsOrS (jsOr2 resp.info_author resp.author_name) "Unknown"
    url := "https://www.youtube.com/playlist?list=" ++ pid
    tracks := [] }

/-- The try-body of `getYouTubePlaylist(playlistId, options)` (lines
158-318), before the outer catch rewrites messages.  The Mix branch
(`playlistId` starting with `RD`) validates the seed id (`substring(2)` must
exist and have exactly 11 characters), then fetches the seed inside an inner
try whose catch replaces every failure — including the thrown
`Seed video not found` for a null result — with `mixUnavailableMsg`, and
synthesizes the Mix playlist.  The normal branch races `getPlaylist` against
a timeout, rejects null or shape-less responses, returns the header with
empty tracks for an empty entry list, and otherwise batch-resolves the
entries. -/
def getYouTubePlaylistInner (playlistId : String) (o : YTOracle) :
    Except String PlaylistInfo :=
  if leadsWith "RD" playlistId.data then
    let sid? : Option String :=
      if playlistId.length > 2 then some (String.mk (playlistId.data.drop 2)) else none
    match sid? with
    | none => .error invalidMixMsg
    | some sid =>
      if sid.length ≠ 11 then .error invalidMixMsg
      else if !o.session then .error "YouTube service not available"
      else
        match o.seedInfo with
        | .error _ => .error mixUnavailableMsg
        | .ok none => .error mixUnavailableMsg
        | .ok (some sv) => .ok (mixPlaylist playlistId sid sv)
  else if !o.session then .error "YouTube service not available"
  else
    match o.playlistFetch with
    | .error e => .error e
    | .ok none => .error "Playlist not found or inaccessible"
    | .ok (some resp) =>
      if resp.videos.isNone && resp.items.isNone then
        .error "Playlist is private or unavailable. Please check your authentication."
      else
        let vids := jsOrArr resp.videos resp.items
        if vids.length = 0 then .ok (playlistHeader playlistId resp)
        else .ok { playlistHeader playlistId resp with tracks := processBatches vids }

/-- `getYouTubePlaylist` including its outer catch (lines 319-332): errors
from the try-body are rethrown with a rewritten message. -/
def getYouTubePlaylist (playlistId : String) (o : YTOracle) :
    Except String PlaylistInfo :=
  match getYouTubePlaylistInner playlistId o with
  | .ok r => .ok r
  | .error e => .error (rewriteError e)

/-- The fields the extractor's `Track` constructor copies from a fetched
track (the remaining constructor arguments — `source`, `raw`, `requestedBy`,
`queryType`, `playlist` — are context constants that carry no fetched
data). -/
structure RespTrack where
  title : String
  author : String
  duration : String
  url : String
  thumbnail : Option String
deriving DecidableEq

/-- `Track` construction from a normalized backend track (field copy). -/
def toRespTrack (t : TrackInfo) : RespTrack :=
  ⟨t.title, t.author, t.duration, t.url, t.thumbnail⟩

/-- The value of `createResponse(playlist, tracks)` — the extractor's result
shape. -/
structure HandlerResponse where
  playlist : Option PlaylistInfo
  tracks : List RespTrack

/-- `handleYouTubePlaylist(url, context)` (part_001 lines 207-259): extract
the playlist id, fetch the playlist, and reject when the result has no
tracks — the guard
`!playlistInfo || !playlistInfo.tracks || playlistInfo.tracks.length === 0`
reduces to the emptiness check because the fetch never resolves null and
`tracks` is always an array.  `Track` construction copies the fetched
fields. -/
def handleYouTubePlaylist (url : String) (o : YTOracle) :
    Except String HandlerResponse :=
  match extractYouTubePlaylistId url with
  | none => .error "Could not extract playlist ID"
  | some pid =>
    match getYouTubePlaylist pid o with
    | .error e => .error e
    | .ok info =>
      if info.tracks.length = 0 then
        .error "Could not get playlist information or playlist is empty"
      else
        .ok ⟨some info, info.tracks.map toRespTrack⟩

/-- Helper: for an accessible ordinary playlist whose entry list resolves to
no tracks (either no entries at all or none resolvable), `getYouTubePlaylist`
succeeds with the empty-tracks header. -/
theorem getYouTubePlaylist_empty_ok (pid : String) (o : YTOracle)
    (resp : PlaylistResponse)
    (hrd : leadsWith "RD" pid.data = false) (hsess : o.session = true)
    (hfetch : o.playlistFetch = .ok (some resp))
    (hshape : (resp.videos.isNone && resp.items.isNone) = false)
    (hempty : (jsOrArr resp.videos resp.items).filterMap resolveEntry = []) :
    getYouTubePlaylist pid o = .ok (playlistHeader pid resp) := by
  have hpb : processBatches (jsOrArr resp.videos resp.items) = [] := by
    rw [processBatches_eq_filterMap]
    exact hempty
  by_cases hv : (jsOrArr resp.videos resp.items).length = 0
  · simp [getYouTubePlaylist, getYouTubePlaylistInner, hrd, hsess, hfetch, hshape, hv]
  · simp [getYouTubePlaylist, getYouTubePlaylistInner, hrd, hsess, hfetch, hshape, hv, hpb]
    rfl

/-- A concrete accessible playlist response whose `videos` list is present
but empty. -/
def emptyPlaylistResp : PlaylistResponse :=
  ⟨some [], none, some "My Playlist", none, none, none, none, none, some "Someone", none⟩

/-- A concrete oracle: live session, accessible empty playlist. -/
def emptyPlaylistOracle : YTOracle :=
  ⟨true, .ok none, .ok (some emptyPlaylistResp)⟩

/-- C4 counterexample: resolving a recognized-site playlist URL whose
playlist is accessible with zero entries IS an error at the extractor level —
`handleYouTubePlaylist` rejects the empty result with
`Could not get playlist information or playlist is empty` instead of
returning a valid empty playlist. -/
theorem empty_playlist_counterexample :
    handleYouTubePlaylist "https://www.youtube.com/playlist?list=PL123"
        emptyPlaylistOracle =
      .error "Could not get playlist information or playlist is empty" := rfl

/-- C4 amended: the low-level playlist fetch (`getYouTubePlaylist`) does
return a valid playlist value with an empty tracks sequence for an accessible
playlist with zero resolvable entries — an error occurs there only when the
playlist itself is inaccessible — but the extractor's playlist URL handler
(`handleYouTubePlaylist`) then rejects the empty result with a
`playlist is empty` error, so URL-level resolution treats it as an error. -/
theorem empty_playlist_amended_spec :
    (∀ (pid : String) (o : YTOracle) (resp : PlaylistResponse),
      leadsWith "RD" pid.data = false →
      o.session = true →
      o.playlistFetch = .ok (some resp) →
      (resp.videos.isNone && resp.items.isNone) = false →
      (jsOrArr resp.videos resp.items).filterMap resolveEntry = [] →
      getYouTubePlaylist pid o = .ok (playlistHeader pid resp) ∧
        (playlistHeader pid resp).tracks = []) ∧
    (∀ (url pid : String) (o : YTOracle) (resp : PlaylistResponse),
      extractYouTubePlaylistId url = some pid →
      leadsWith "RD" pid.data = false →
      o.session = true →
      o.playlistFetch = .ok (some resp) →
      (resp.videos.isNone && resp.items.isNone) = false →
      (jsOrArr resp.videos resp.items).filterMap resolveEntry = [] →
      handleYouTubePlaylist url o =
        .error "Could not get playlist information or playlist is empty") := by
  constructor
  · intro pid o resp hrd hsess hfetch hshape hempty
    exact ⟨getYouTubePlaylist_empty_ok pid o resp hrd hsess hfetch hshape hempty, rfl⟩
  · intro url pid o resp hurl hrd hsess hfetch hshape hempty
    have hok := getYouTubePlaylist_empty_ok pid o resp hrd hsess hfetch hshape hempty
    simp [handleYouTubePlaylist, hurl, hok, playlistHeader]

/-- Witness for C4 (amended) at the concrete empty-playlist scenario. -/
theorem empty_playlist_amended_spec_witness :
    handleYouTubePlaylist "https://m.youtube.com/playlist?list=PL999"
        emptyPlaylistOracle =
      .error "Could not get playlist information or playlist is empty" :=
  empty_playlist_amended_spec.2 "https://m.youtube.com/playlist?list=PL999" "PL999"
    emptyPlaylistOracle emptyPlaylistResp (by decide) (by decide) rfl rfl rfl rfl

/-- Helper: the invalid-mix-id message passes through the outer catch
unchanged (it mentions none of the rewritten keywords). -/
theorem rewriteError_invalid : rewriteError invalidMixMsg = invalidMixMsg := by decide

/-- Helper: the mix-unavailable message contains the substring `private`
(inside `a private or unavailable Mix`), so the outer catch rewrites it into
the private/authentication playlist error. -/
theorem rewriteError_mix : rewriteError mixUnavailableMsg = privateMsg := by decide

/-- Helper: a Mix id whose seed part has 11 characters is longer than the
two-character marker. -/
theorem mixSeedLen_pos {pid : String}
    (hlen : (String.mk (pid.data.drop 2)).length = 11) : pid.length > 2 := by
  have h1 : (pid.data.drop 2).length = 11 := hlen
  rw [List.length_drop] at h1
  change pid.data.length > 2
  omega

/-- A concrete oracle whose Mix seed fetch throws. -/
def mixFailOracle : YTOracle := ⟨true, .error "fetch failed", .ok none⟩

/-- C7 counterexample: for the well-formed Mix id `RDabcdefghijk` with a
failing seed fetch, the error surfaced by `getYouTubePlaylist` is NOT the
mix-unavailable error: the internally thrown mix message contains the word
`private`, so the outer catch rewrites it into the private/authentication
playlist error before it reaches the caller. -/
theorem mix_error_counterexample :
    getYouTubePlaylist "RDabcdefghijk" mixFailOracle = .error privateMsg ∧
    getYouTubePlaylist "RDabcdefghijk" mixFailOracle ≠ .error mixUnavailableMsg := by
  have h1 : getYouTubePlaylist "RDabcdefghijk" mixFailOracle = .error privateMsg := rfl
  refine ⟨h1, ?_⟩
  rw [h1]
  simp only [ne_eq, Except.error.injEq]
  decide

/-- C7 amended: a mix playlist identifier is `RD` followed by an 11-character
seed id, and an identifier whose remainder is not exactly 11 characters fails
with the invalid-mix-id error; for a well-formed identifier whose seed
resolves, has a nonempty title and at least 19 playable recommended items,
materialization returns exactly 20 tracks, seed first, with title
`Mix - {seed title}` and author `YouTube`.  However, a failure fetching the
seed is only thrown *internally* as the mix-unavailable error: the outer
catch of `getYouTubePlaylist` rewrites that message (it contains `private`)
into the private/authentication playlist error, which is what the caller
sees. -/
theorem mix_playlist_amended_spec :
    (∀ (pid : String) (o : YTOracle),
      leadsWith "RD" pid.data = true →
      (String.mk (pid.data.drop 2)).length ≠ 11 →
      getYouTubePlaylist pid o = .error invalidMixMsg) ∧
    (∀ (pid : String) (o : YTOracle) (sv : SeedVideo) (t : String)
        (feed : List FeedItem),
      leadsWith "RD" pid.data = true →
      (String.mk (pid.data.drop 2)).length = 11 →
      o.session = true →
      o.seedInfo = .ok (some sv) →
      sv.title = some t → t ≠ "" →
      sv.feed = some feed →
      19 ≤ (feed.filter playableItem).length →
      getYouTubePlaylist pid o =
          .ok (mixPlaylist pid (String.mk (pid.data.drop 2)) sv) ∧
        (mixPlaylist pid (String.mk (pid.data.drop 2)) sv).tracks.length = 20 ∧
        (mixPlaylist pid (String.mk (pid.data.drop 2)) sv).tracks.head? =
          some (seedTrack (String.mk (pid.data.drop 2)) sv) ∧
        (mixPlaylist pid (String.mk (pid.data.drop 2)) sv).title = "Mix - " ++ t ∧
        (mixPlaylist pid (String.mk (pid.data.drop 2)) sv).author = "YouTube") ∧
    (∀ (pid : String) (o : YTOracle),
      leadsWith "RD" pid.data = true →
      (String.mk (pid.data.drop 2)).length = 11 →
      o.session = true →
      ((∃ e, o.seedInfo = .error e) ∨ o.seedInfo = .ok none) →
      getYouTubePlaylistInner pid o = .error mixUnavailableMsg ∧
        getYouTubePlaylist pid o = .error privateMsg) := by
  refine ⟨?_, ?_, ?_⟩
  · intro pid o hrd hlen
    by_cases hl : pid.length > 2
    · have hlen2 : ¬(pid.length - 2 = 11) := by
        have h1 : (pid.data.drop 2).length ≠ 11 := hlen
        rw [List.length_drop] at h1
        exact h1
      simp [getYouTubePlaylist, getYouTubePlaylistInner, hrd, hl, hlen2,
        rewriteError_invalid]
    · simp [getYouTubePlaylist, getYouTubePlaylistInner, hrd, hl,
        rewriteError_invalid]
  · intro pid o sv t feed hrd hlen hsess hseed htitle htne hfeed hcount
    have hl : pid.length > 2 := mixSeedLen_pos hlen
    have hlen2 : pid.length - 2 = 11 := by
      have h1 : (pid.data.drop 2).length = 11 := hlen
      rw [List.length_drop] at h1
      exact h1
    refine ⟨?_, ?_, ?_, ?_, rfl⟩
    · simp [getYouTubePlaylist, getYouTubePlaylistInner, hrd, hl, hlen2, hsess, hseed]
    · simp only [mixPlaylist, mixTracks, hfeed, List.length_cons, List.length_map,
        List.length_take]
      omega
    · simp [mixPlaylist, mixTracks, hfeed]
    · simp [mixPlaylist, jsOrS, htitle, htne]
  · intro pid o hrd hlen hsess hfail
    have hl : pid.length > 2 := mixSeedLen_pos hlen
    have hlen2 : pid.length - 2 = 11 := by
      have h1 : (pid.data.drop 2).length = 11 := hlen
      rw [List.length_drop] at h1
      exact h1
    have hinner : getYouTubePlaylistInner pid o = .error mixUnavailableMsg := by
      rcases hfail with ⟨e, he⟩ | hn
      · simp [getYouTubePlaylistInner, hrd, hl, hlen2, hsess, he]
      · simp [getYouTubePlaylistInner, hrd, hl, hlen2, hsess, hn]
    refine ⟨hinner, ?_⟩
    simp [getYouTubePlaylist, hinner, rewriteError_mix]

/-- A concrete playable recommended feed item. -/
def sampleFeedItem : FeedItem :=
  ⟨"CompactVideo", some "wwwwwwwwwww", true, some "Recommended", some "2:00",
    none, some "B", some "9"⟩

/-- A concrete Mix seed video with 25 playable recommended items. -/
def mixSeed : SeedVideo :=
  ⟨some "Seed Song", some "3:21", none, some "Artist", some "42",
    some (List.replicate 25 sampleFeedItem)⟩

/-- A concrete oracle whose Mix seed fetch succeeds with `mixSeed`. -/
def mixOkOracle : YTOracle := ⟨true, .ok (some mixSeed), .ok none⟩

/-- Witness for C7 (amended) at the concrete Mix id `RDabcdefghijk` with a
25-item recommendation feed. -/
theorem mix_playlist_amended_spec_witness :
    getYouTubePlaylist "RDabcdefghijk" mixOkOracle =
        .ok (mixPlaylist "RDabcdefghijk"
          (String.mk ("RDabcdefghijk".data.drop 2)) mixSeed) ∧
      (mixPlaylist "RDabcdefghijk"
        (String.mk ("RDabcdefghijk".data.drop 2)) mixSeed).tracks.length = 20 ∧
      (mixPlaylist "RDabcdefghijk"
        (String.mk ("RDabcdefghijk".data.drop 2)) mixSeed).tracks.head? =
        some (seedTrack (String.mk ("RDabcdefghijk".data.drop 2)) mixSeed) ∧
      (mixPlaylist "RDabcdefghijk"
        (String.mk ("RDabcdefghijk".data.drop 2)) mixSeed).title =
        "Mix - " ++ "Seed Song" ∧
      (mixPlaylist "RDabcdefghijk"
        (String.mk ("RDabcdefghijk".data.drop 2)) mixSeed).author = "YouTube" :=
  mix_playlist_amended_spec.2.1 "RDabcdefghijk" mixOkOracle mixSeed "Seed Song"
    (List.replicate 25 sampleFeedItem) (by decide) (by decide) rfl rfl rfl
    (by decide) rfl (by decide)

/-- Whitespace trimming of JS `String.prototype.trim`, on character lists so
it kernel-evaluates. -/
def trimChars (s : String) : String :=
  String.mk (((s.data.dropWhile Char.isWhitespace).reverse.dropWhile
    Char.isWhitespace).reverse)

/-- Outcome of one `execAsync` invocation of the external binary: the awaited
call either throws (spawn failure, non-zero exit, or the enforced timeout —
the message carries the diagnostic) or returns stdout and stderr. -/
inductive ExecOutcome
  | threw (msg : String)
  | finished (stdout stderr : String)
deriving DecidableEq

/-- Result of one external-extractor call together with the observable
effects the claims are about: whether the subprocess was actually invoked and
whether the temporary cookie-jar file exists after the call returns. -/
structure ExtCall (α : Type) where
  result : Except String α
  fileAfter : Bool
  invoked : Bool

/-- The write condition of `getStreamingUrl` (line 427):
`cookies && typeof cookies === 'string' && cookies.trim()` — a supplied
string credential that is non-blank after trimming. -/
def streamCookiesWritable (cookies : Option String) : Bool :=
  match cookies with
  | some c => trimChars c != ""
  | none => false

/-- `getStreamingUrl(url, ytdlpPath, quality, cookies)` (lines 404-475).
`binaryExists` models `fs.existsSync(ytdlpPath)`; `writeOk` whether the
cookie transcode/write succeeds (its failure is caught and the call proceeds
without the cookie argument); `ex` the subprocess outcome; `fileBefore`
whether the temp cookie file exists when the call starts.  Control flow as in
the source: the binary check throws first; a writable credential is
transcoded and written to the fixed temp path; `execAsync` runs; only when it
returns does the inline cleanup (lines 449-459, guarded by `if (cookies)`)
delete the file — the catch at line 471 rethrows without cleanup, so a
thrown subprocess call (error or timeout) skips the deletion; the
empty-stdout/non-`http` checks throw after the cleanup.  The page URL and
quality selector only feed the command line and are omitted. -/
def getStreamingUrl (binaryExists : Bool) (cookies : Option String)
    (writeOk : Bool) (ex : ExecOutcome) (fileBefore : Bool) : ExtCall String :=
  if !binaryExists then ⟨.error "yt-dlp binary not found", fileBefore, false⟩
  else
    let fileNow := if streamCookiesWritable cookies && writeOk then true else fileBefore
    match ex with
    | .threw msg => ⟨.error msg, fileNow, true⟩
    | .finished out err =>
      let fileClean := if truthyS cookies then false else fileNow
      if (err != "") && (out == "") then
        ⟨.error ("yt-dlp error: " ++ err), fileClean, true⟩
      else
        let streamUrl := trimChars out
        if (streamUrl == "") || !(leadsWith "http" streamUrl.data) then
          ⟨.error "Invalid streaming URL returned", fileClean, true⟩
        else ⟨.ok streamUrl, fileClean, true⟩

/-- Fields of the yt-dlp JSON metadata document that
`getYouTubeMetadataWithYtDlp` consults. -/
structure MetaJson where
  title : Option String
  fulltitle : Option String
  duration : Option Int
  thumbnail : Option String
  uploader : Option String
  channel : Option String
  view_count_num : Option Int
  description : Option String
deriving DecidableEq

/-- The normalized metadata value returned by `getYouTubeMetadataWithYtDlp`
(lines 537-546); `views` stays numeric there (`info.view_count || 0`). -/
structure TrackMeta where
  id : String
  title : String
  duration : String
  thumbnail : Option String
  url : String
  author : String
  views : Int
  description : String
deriving DecidableEq

/-- `getYouTubeMetadataWithYtDlp(videoId, ytdlpPath, cookies)` (lines
480-551).  Same oracle conventions as `getStreamingUrl`; the write condition
here is plain credential truthiness, the temp file is the metadata-scoped
one, and `JSON.parse(stdout)` — which runs after the cleanup — is the
`parsed` oracle (`none` models a parse throw, whose error propagates).
The duration field renders `info.duration ? formatDuration(info.duration) :
'Unknown'`. -/
def getYouTubeMetadataWithYtDlp (videoId : String) (binaryExists : Bool)
    (cookies : Option String) (writeOk : Bool) (ex : ExecOutcome)
    (parsed : Option MetaJson) (fileBefore : Bool) : ExtCall TrackMeta :=
  if !binaryExists then ⟨.error "yt-dlp binary not found", fileBefore, false⟩
  else
    let fileNow := if truthyS cookies && writeOk then true else fileBefore
    match ex with
    | .threw msg => ⟨.error msg, fileNow, true⟩
    | .finished out err =>
      let fileClean := if truthyS cookies then false else fileNow
      if (err != "") && (out == "") then
        ⟨.error ("yt-dlp metadata error: " ++ err), fileClean, true⟩
      else
        match parsed with
        | none => ⟨.error "JSON parse error", fileClean, true⟩
        | some info =>
          ⟨.ok
            { id := videoId
              title := jsOrS (jsOr2 info.title info.fulltitle) "Unknown Title"
              duration :=
                match info.duration with
                | some v => if v ≠ 0 then formatDuration (some v) else "Unknown"
                | none => "Unknown"
              thumbnail := jsOrNull info.thumbnail none
              url := "https://www.youtube.com/watch?v=" ++ videoId
              author := jsOrS (jsOr2 info.uploader info.channel) "Unknown Artist"
              views := info.view_count_num.getD 0
              description := jsOrS info.description "" }, fileClean, true⟩

/-- C3 counterexample: with a credential supplied and the subprocess call
throwing (process error or timeout), both external-extractor operations
return with the temporary cookie-jar file still on disk — the cleanup step
sits inside the try block after `execAsync` rather than in a finally, so it
does not run on that failure path. -/
theorem cookie_file_persists_counterexample :
    (getStreamingUrl true (some "SID=abc") true (.threw "timeout of 15000ms exceeded")
        false).fileAfter = true ∧
    (getStreamingUrl true (some "SID=abc") true (.threw "timeout of 15000ms exceeded")
        false).result = .error "timeout of 15000ms exceeded" ∧
    (getYouTubeMetadataWithYtDlp "abcdefghijk" true (some "SID=abc") true
        (.threw "spawn yt-dlp failed") none false).fileAfter = true ∧
    (getYouTubeMetadataWithYtDlp "abcdefghijk" true (some "SID=abc") true
        (.threw "spawn yt-dlp failed") none false).result =
      .error "spawn yt-dlp failed" :=
  ⟨rfl, rfl, rfl, rfl⟩

/-- C3 amended: for both credentialed external-extractor operations the
temporary cookie-jar file is deleted before the operation returns whenever
the subprocess invocation itself returns — on success and on the failure
paths detected afterwards (stderr without stdout, invalid/unparsable output)
— but when the subprocess call throws (external-process error or timeout),
the cleanup is skipped and a written cookie file persists after the call. -/
theorem cookie_cleanup_amended_spec :
    (∀ (cookies : Option String) (writeOk : Bool) (out err : String) (fb : Bool),
      truthyS cookies = true →
      (getStreamingUrl true cookies writeOk (.finished out err) fb).fileAfter = false) ∧
    (∀ (cookies : Option String) (msg : String),
      streamCookiesWritable cookies = true →
      (getStreamingUrl true cookies true (.threw msg) false).fileAfter = true) ∧
    (∀ (cookies : Option String) (writeOk : Bool) (out err : String)
        (parsed : Option MetaJson) (vid : String) (fb : Bool),
      truthyS cookies = true →
      (getYouTubeMetadataWithYtDlp vid true cookies writeOk (.finished out err)
        parsed fb).fileAfter = false) ∧
    (∀ (cookies : Option String) (msg : String) (vid : String),
      truthyS cookies = true →
      (getYouTubeMetadataWithYtDlp vid true cookies true (.threw msg)
        none false).fileAfter = true) := by
  refine ⟨?_, ?_, ?_, ?_⟩
  · intro cookies writeOk out err fb hc
    simp [getStreamingUrl, hc]
    split
    · rfl
    · split <;> rfl
  · intro cookies msg hw
    simp [getStreamingUrl, hw]
  · intro cookies writeOk out err parsed vid fb hc
    cases parsed with
    | none =>
      simp [getYouTubeMetadataWithYtDlp, hc]
      split <;> rfl
    | some info =>
      simp [getYouTubeMetadataWithYtDlp, hc]
      split <;> rfl
  · intro cookies msg vid hc
    simp [getYouTubeMetadataWithYtDlp, hc]

/-- Witness for C3 (amended): a credentialed stream call whose subprocess
returns leaves no cookie file behind. -/
theorem cookie_cleanup_amended_spec_witness :
    (getStreamingUrl true (some "SID=abc") true
      (.finished "https://cdn.example/audio" "") true).fileAfter = false :=
  cookie_cleanup_amended_spec.1 (some "SID=abc") true "https://cdn.example/audio" ""
    true (by decide)

/-- The fields of the track value that `stream(info)` consults: `info.url`
and `info.raw?.url`. -/
structure StreamInfo where
  url : Option String
  raw_url : Option String
deriving DecidableEq

/-- `stream(info)` of the extractor (part_001 lines 305-332): resolve the
page URL as `info.url || info.raw?.url`, throw when it is falsy, then
delegate to `getStreamingUrl` — the source keeps no cache and reads no stored
URL: the only inputs of a call are the track info and that call's own
subprocess outcome, and nothing is written back.  The final `startsWith
('http')` re-check mirrors lines 320-322. -/
def stream (info : StreamInfo) (binaryExists : Bool) (cookies : Option String)
    (writeOk : Bool) (ex : ExecOutcome) (fileBefore : Bool) : ExtCall String :=
  let url := jsOr2 info.url info.raw_url
  if !(truthyS url) then ⟨.error "No URL found in track info", fileBefore, false⟩
  else
    let r := getStreamingUrl binaryExists cookies writeOk ex fileBefore
    match r.result with
    | .error e => ⟨.error e, r.fileAfter, r.invoked⟩
    | .ok s =>
      if (s == "") || !(leadsWith "http" s.data) then
        ⟨.error "Invalid streaming URL returned", r.fileAfter, r.invoked⟩
      else ⟨.ok s, r.fileAfter, r.invoked⟩

/-- Helper: when the binary exists, `getStreamingUrl` always runs the
subprocess, whatever the outcome. -/
theorem getStreamingUrl_invoked (c : Option String) (w : Bool) (ex : ExecOutcome)
    (fb : Bool) : (getStreamingUrl true c w ex fb).invoked = true := by
  cases ex with
  | threw m => rfl
  | finished out err =>
    simp [getStreamingUrl]
    split
    · rfl
    · split <;> rfl

/-- Helper: a string with the `http` lead is not empty. -/
theorem leadsWith_http_ne_empty {s : String}
    (h : leadsWith "http" s.data = true) : (s == "") = false := by
  cases hq : s == "" with
  | false => rfl
  | true =>
    exfalso
    have hs : s = "" := eq_of_beq hq
    rw [hs] at h
    exact absurd h (by decide)

/-- Helper: `stream` invokes the subprocess whenever the track has a URL and
the binary exists. -/
theorem stream_invoked (info : StreamInfo) (c : Option String) (w : Bool)
    (ex : ExecOutcome) (fb : Bool)
    (hu : truthyS (jsOr2 info.url info.raw_url) = true) :
    (stream info true c w ex fb).invoked = true := by
  simp only [stream, hu, Bool.not_true, Bool.false_eq_true, if_false]
  split
  · exact getStreamingUrl_invoked c w ex fb
  · split
    · exact getStreamingUrl_invoked c w ex fb
    · exact getStreamingUrl_invoked c w ex fb

/-- Helper: a stream call whose own subprocess outcome is a clean `http`
URL returns exactly that (trimmed) URL. -/
theorem stream_ok (info : StreamInfo) (out : String) (fb : Bool)
    (hu : truthyS (jsOr2 info.url info.raw_url) = true)
    (hh : leadsWith "http" (trimChars out).data = true) :
    (stream info true none true (.finished out "") fb).result =
      .ok (trimChars out) := by
  have hne := leadsWith_http_ne_empty hh
  simp [stream, getStreamingUrl, hu, hne, hh]

/-- C8: stream resolution never caches — every call with a URL-bearing track
and an existing binary performs its own external-extractor invocation, so two
sequential stream calls for the same track issue two distinct subprocess
invocations, and each call's returned URL comes from that call's own
subprocess output (no resolved URL is stored between calls: the definition
reads and writes no state). -/
theorem stream_fresh_spec :
    (∀ (info : StreamInfo) (c₁ c₂ : Option String) (w₁ w₂ : Bool)
        (ex₁ ex₂ : ExecOutcome) (fb₁ fb₂ : Bool),
      truthyS (jsOr2 info.url info.raw_url) = true →
      (stream info true c₁ w₁ ex₁ fb₁).invoked = true ∧
      (stream info true c₂ w₂ ex₂ fb₂).invoked = true) ∧
    (∀ (info : StreamInfo) (out₁ out₂ : String) (fb₁ fb₂ : Bool),
      truthyS (jsOr2 info.url info.raw_url) = true →
      leadsWith "http" (trimChars out₁).data = true →
      leadsWith "http" (trimChars out₂).data = true →
      (stream info true none true (.finished out₁ "") fb₁).result =
          .ok (trimChars out₁) ∧
      (stream info true none true (.finished out₂ "") fb₂).result =
          .ok (trimChars out₂)) := by
  constructor
  · intro info c₁ c₂ w₁ w₂ ex₁ ex₂ fb₁ fb₂ hu
    exact ⟨stream_invoked info c₁ w₁ ex₁ fb₁ hu, stream_invoked info c₂ w₂ ex₂ fb₂ hu⟩
  · intro info out₁ out₂ fb₁ fb₂ hu h₁ h₂
    exact ⟨stream_ok info out₁ fb₁ hu h₁, stream_ok info out₂ fb₂ hu h₂⟩

/-- Witness for C8: two sequential calls for the same track with different
fresh subprocess outputs return their own respective URLs. -/
theorem stream_fresh_spec_witness :
    (stream ⟨some "https://www.youtube.com/watch?v=abcdefghijk", none⟩ true none true
        (.finished "https://cdn.one/a" "") false).result =
        .ok (trimChars "https://cdn.one/a") ∧
    (stream ⟨some "https://www.youtube.com/watch?v=abcdefghijk", none⟩ true none true
        (.finished "https://cdn.two/b" "") false).result =
        .ok (trimChars "https://cdn.two/b") :=
  stream_fresh_spec.2 ⟨some "https://www.youtube.com/watch?v=abcdefghijk", none⟩
    "https://cdn.one/a" "https://cdn.two/b" false false (by decide) (by decide)
    (by decide)

/-- `Track` construction from the yt-dlp metadata value (field copy). -/
def metaRespTrack (m : TrackMeta) : RespTrack :=
  ⟨m.title, m.author, m.duration, m.url, m.thumbnail⟩

/-- Oracle bundling the outcomes of the downstream calls one `handle`
invocation can make: the playlist oracle, the yt-dlp metadata outcome for the
single-video path, the youtubei fallback metadata (`none` models its `null`
failure result — `getYouTubeMetadata` catches internally), the flat-info
outcome for non-recognized sites (whose failure propagates), and the search
results (`searchYouTube` already resolves `[]` on failure). -/
structure HandleOracle where
  yt : YTOracle
  ytdlpMeta : Except String TrackMeta
  ytiMeta : Option TrackInfo
  basicInfo : Except String TrackInfo
  searchResults : List TrackInfo

/-- `handleSearchQuery(query, context)` (part_001 lines 264-300): search with
limit 1 and take the first result; a disabled search or any error is caught
by its own catch and becomes an empty response, so the operation is total. -/
def handleSearchQuery (enableSearch : Bool) (searchResults : List TrackInfo) :
    HandlerResponse :=
  if !enableSearch then ⟨none, []⟩
  else
    match searchResults with
    | [] => ⟨none, []⟩
    | r :: _ => ⟨none, [toRespTrack r]⟩

/-- `handleDirectUrl(url, context)` (part_001 lines 133-202): validate the
URL, dispatch recognized-site playlist URLs to the playlist handler, resolve
recognized-site videos via yt-dlp metadata with a youtubei fallback, and all
other sites via the flat extractor info; every failure is rethrown (line
200). -/
def handleDirectUrl (url : String) (o : HandleOracle) :
    Except String HandlerResponse :=
  if !(validateUrl url) then .error "Invalid URL format"
  else if isYouTubeUrl url then
    if isYouTubePlaylistUrl url then handleYouTubePlaylist url o.yt
    else
      match extractYouTubeId url with
      | none => .error "Could not extract YouTube video ID"
      | some _ =>
        match o.ytdlpMeta with
        | .ok m => .ok ⟨none, [metaRespTrack m]⟩
        | .error _ =>
          match o.ytiMeta with
          | none => .error "Could not get YouTube metadata"
          | some t => .ok ⟨none, [toRespTrack t]⟩
  else
    match o.basicInfo with
    | .error e => .error e
    | .ok t => .ok ⟨none, [toRespTrack t]⟩

/-- `handle(query, context)` (part_001 lines 115-128): URL queries go to the
direct-URL handler, everything else to the search handler — and the
surrounding try/catch converts ANY error from those handlers into
`createResponse(null, [])`, an empty response, so `handle` itself never
rejects. -/
def handle (query : String) (enableSearch : Bool) (o : HandleOracle) :
    HandlerResponse :=
  if isValidUrl query then
    match handleDirectUrl query o with
    | .ok r => r
    | .error _ => ⟨none, []⟩
  else handleSearchQuery enableSearch o.searchResults

/-- A concrete oracle in which every backend call fails. -/
def allFailOracle : HandleOracle :=
  ⟨⟨true, .ok none, .error "Playlist request timeout"⟩, .error "yt-dlp died", none,
    .error "yt-dlp info error: unsupported site", []⟩

/-- C1 counterexample: for a recognized-site playlist URL whose playlist
fetch fails, the failure does NOT propagate to the caller of `handle` — the
inner handler rejects with a descriptive error, but `handle`'s catch turns it
into an empty response.  The same happens for a non-recognized-site direct
URL whose extractor fetch fails. -/
theorem handle_swallow_counterexample :
    handle "https://www.youtube.com/playlist?list=PL123" true allFailOracle =
        ⟨none, []⟩ ∧
    handleDirectUrl "https://www.youtube.com/playlist?list=PL123" allFailOracle =
        .error timeoutMsg ∧
    handle "https://example.com/video" true allFailOracle = ⟨none, []⟩ ∧
    handleDirectUrl "https://example.com/video" allFailOracle =
        .error "yt-dlp info error: unsupported site" :=
  ⟨rfl, rfl, rfl, rfl⟩

/-- C1 amended: when no fallback exists — a recognized-site playlist fetch
that fails, or a non-recognized-site direct URL whose extractor fetch fails —
the failure propagates as a descriptive error only as far as
`handleDirectUrl`; the top-level `handle` catches it and returns an empty
result to its caller instead of rethrowing. -/
theorem handle_swallow_amended_spec :
    (∀ (o : HandleOracle) (e : String),
      o.yt.session = true →
      o.yt.playlistFetch = .error e →
      handleDirectUrl "https://www.youtube.com/playlist?list=PL123" o =
          .error (rewriteError e) ∧
      handle "https://www.youtube.com/playlist?list=PL123" true o = ⟨none, []⟩) ∧
    (∀ (o : HandleOracle) (e : String),
      o.basicInfo = .error e →
      handleDirectUrl "https://example.com/video" o = .error e ∧
      handle "https://example.com/video" true o = ⟨none, []⟩) := by
  constructor
  · intro o e hs hf
    have hrd : leadsWith "RD" ("PL123" : String).data = false := by decide
    have hpl : getYouTubePlaylist "PL123" o.yt = .error (rewriteError e) := by
      simp [getYouTubePlaylist, getYouTubePlaylistInner, hrd, hs, hf]
    have hex : extractYouTubePlaylistId "https://www.youtube.com/playlist?list=PL123" =
        some "PL123" := by decide
    have hh : handleYouTubePlaylist "https://www.youtube.com/playlist?list=PL123" o.yt =
        .error (rewriteError e) := by
      simp [handleYouTubePlaylist, hex, hpl]
    have hval : validateUrl "https://www.youtube.com/playlist?list=PL123" = true := by
      decide
    have hyt : isYouTubeUrl "https://www.youtube.com/playlist?list=PL123" = true := by
      decide
    have hpls : isYouTubePlaylistUrl "https://www.youtube.com/playlist?list=PL123" =
        true := by decide
    have hdu : handleDirectUrl "https://www.youtube.com/playlist?list=PL123" o =
        .error (rewriteError e) := by
      simp [handleDirectUrl, hval, hyt, hpls, hh]
    refine ⟨hdu, ?_⟩
    have hvalid : isValidUrl "https://www.youtube.com/playlist?list=PL123" = true := by
      decide
    simp [handle, hvalid, hdu]
  · intro o e hb
    have hval : validateUrl "https://example.com/video" = true := by decide
    have hyt : isYouTubeUrl "https://example.com/video" = false := by decide
    have hdu : handleDirectUrl "https://example.com/video" o = .error e := by
      simp [handleDirectUrl, hval, hyt, hb]
    refine ⟨hdu, ?_⟩
    have hvalid : isValidUrl "https://example.com/video" = true := by decide
    simp [handle, hvalid, hdu]

/-- Witness for C1 (amended) at the concrete all-failing oracle. -/
theorem handle_swallow_amended_spec_witness :
    (handleDirectUrl "https://www.youtube.com/playlist?list=PL123" allFailOracle =
        .error (rewriteError "Playlist request timeout") ∧
      handle "https://www.youtube.com/playlist?list=PL123" true allFailOracle =
        ⟨none, []⟩) ∧
    (handleDirectUrl "https://example.com/video" allFailOracle =
        .error "yt-dlp info error: unsupported site" ∧
      handle "https://example.com/video" true allFailOracle = ⟨none, []⟩) :=
  ⟨handle_swallow_amended_spec.1 allFailOracle "Playlist request timeout" rfl rfl,
    handle_swallow_amended_spec.2 allFailOracle "yt-dlp info error: unsupported site" rfl⟩

/-- The fields of the seed track that the related-track orchestration reads:
its canonical URL and its author string (`""` is falsy). -/
structure SeedTrackRef where
  url : String
  author : String
deriving DecidableEq

/-- Observable outcome of one `getRelatedTracks(track, history)` call of the
extractor: the produced tracks and whether the fallback `searchYouTube` call
was performed. -/
structure RelatedOutcome where
  tracks : List RespTrack
  searchRan : Bool
deriving DecidableEq

/-- `getRelatedTracks(track, history)` of the extractor (part_001 lines
337-407).  `primary` is the outcome of the utilities `getRelatedTracks`
(which already resolves `[]` on every failure), `searchResults` the outcome
of the fallback `searchYouTube` for `"{author} music"`.  Non-recognized
URLs and unextractable ids return empty without searching; the fallback runs
only when the primary list is empty AND the author is truthy and not the
`Unknown Artist` sentinel; results are filtered against playback history and
the seed itself and truncated to 5.  When the filtered list is empty the
source returns an empty response — the same value the truncation produces —
so both exits are one record here. -/
def getRelatedTracksHandler (track : SeedTrackRef) (historyUrls : List String)
    (primary searchResults : List TrackInfo) : RelatedOutcome :=
  if !(isYouTubeUrl track.url) then ⟨[], false⟩
  else
    match extractYouTubeId track.url with
    | none => ⟨[], false⟩
    | some _ =>
      let doSearch := primary.isEmpty &&
        ((track.author != "") && (track.author != "Unknown Artist"))
      let related :=
        if primary.isEmpty then
          if (track.author != "") && (track.author != "Unknown Artist") then
            searchResults
          else []
        else primary
      let filtered := related.filter
        (fun td => !(historyUrls.contains td.url) && td.url != track.url)
      ⟨if filtered.isEmpty then [] else (filtered.take 5).map toRespTrack, doSearch⟩

/-- C10: the fallback search is attempted only when the primary
recommendations lookup is empty and the seed track's author is present and
not the `Unknown Artist` sentinel; a seed with an unknown author and no
recommendations yields an empty result without any search being
performed. -/
theorem related_fallback_spec :
    (∀ (track : SeedTrackRef) (hist : List String)
        (primary search : List TrackInfo),
      (getRelatedTracksHandler track hist primary search).searchRan = true →
      primary = [] ∧ track.author ≠ "" ∧ track.author ≠ "Unknown Artist") ∧
    (∀ (track : SeedTrackRef) (hist : List String) (search : List TrackInfo),
      track.author = "" ∨ track.author = "Unknown Artist" →
      (getRelatedTracksHandler track hist [] search).tracks = [] ∧
      (getRelatedTracksHandler track hist [] search).searchRan = false) := by
  constructor
  · intro track hist primary search h
    by_cases hyt : isYouTubeUrl track.url = true
    · cases hex : extractYouTubeId track.url with
      | none => simp [getRelatedTracksHandler, hyt, hex] at h
      | some v =>
        simp [getRelatedTracksHandler, hyt, hex] at h
        exact h
    · have hyt2 : isYouTubeUrl track.url = false := by
        cases hbt : isYouTubeUrl track.url
        · rfl
        · exact absurd hbt hyt
      simp [getRelatedTracksHandler, hyt2] at h
  · intro track hist search hauth
    have hcond : ((track.author != "") && (track.author != "Unknown Artist")) =
        false := by
      rcases hauth with h | h <;> rw [h] <;> decide
    by_cases hyt : isYouTubeUrl track.url = true
    · cases hex : extractYouTubeId track.url with
      | none => simp [getRelatedTracksHandler, hyt, hex]
      | some v => simp [getRelatedTracksHandler, hyt, hex, hcond]
    · have hyt2 : isYouTubeUrl track.url = false := by
        cases hbt : isYouTubeUrl track.url
        · rfl
        · exact absurd hbt hyt
      simp [getRelatedTracksHandler, hyt2]

/-- Witness for C10: an unknown-author seed with no recommendations and a
nonempty would-be search result still yields an empty result without
searching. -/
theorem related_fallback_spec_witness :
    (getRelatedTracksHandler
        ⟨"https://www.youtube.com/watch?v=abcdefghijk", "Unknown Artist"⟩ [] []
        [sampleTrack "aaaaaaaaaa1"]).tracks = [] ∧
    (getRelatedTracksHandler
        ⟨"https://www.youtube.com/watch?v=abcdefghijk", "Unknown Artist"⟩ [] []
        [sampleTrack "aaaaaaaaaa1"]).searchRan = false :=
  related_fallback_spec.2
    ⟨"https://www.youtube.com/watch?v=abcdefghijk", "Unknown Artist"⟩ []
    [sampleTrack "aaaaaaaaaa1"] (Or.inr rfl)

end YtDlp
